import Mathlib

set_option maxRecDepth 100000

/-
Verification of the demuxfs PSI/DSM-CC table-parsing pipeline.

The definitions below are a shallow embedding of the C sources:
  * pat.c      : pat_free, pat_announces_service, pat_populate,
                 pat_create_directory, pat_parse
  * dsmcc.c    : dsmcc_create_compatibility_descriptor_dentries,
                 dsmcc_parse_message_header
  * ts.h       : TS_PACKET_HASH_KEY
Bytes are Nat values reduced mod 256 at every access (C `char` reads into
fixed-width fields).  Helper code that the sources call but that is not part
of the available sources (psi.c, fsutils.c, hash.c, byteops.h, the struct
headers and the FS_* name macros) is modelled from the specification; each
such definition carries a doc comment saying so.
-/

/-- Modelled from the spec: byteops.h is not available; the spec describes
big-endian field extractors.  A byte access: list lookup reduced mod 256
(out-of-range reads yield 0). -/
def byteAt (payload : List Nat) (i : Nat) : Nat :=
  payload.getD i 0 % 256

/-- Modelled from the spec: big-endian 16-bit extractor (byteops.h
CONVERT_TO_16). -/
def CONVERT_TO_16 (a b : Nat) : Nat :=
  (a % 256) * 256 + b % 256

/-- Modelled from the spec: big-endian 32-bit extractor (byteops.h
CONVERT_TO_32). -/
def CONVERT_TO_32 (a b c d : Nat) : Nat :=
  (a % 256) * 16777216 + (b % 256) * 65536 + (c % 256) * 256 + d % 256

/-- Modelled from the spec: one shift step of CRC32/MPEG2 (polynomial
0x04C11DB7, MSB first), on 32-bit words represented as Nat mod 2^32. -/
def crc32_step (c : Nat) : Nat :=
  if c.testBit 31 then ((c * 2) ^^^ 0x04C11DB7) % 4294967296
  else (c * 2) % 4294967296

/-- Modelled from the spec: feed one byte into the CRC32/MPEG2 register. -/
def crc32_feed (c b : Nat) : Nat :=
  crc32_step^[8] ((c ^^^ (b % 256) * 16777216) % 4294967296)

/-- Modelled from the spec: CRC32/MPEG2 over a byte list, initial value
0xFFFFFFFF, no reflection, no final XOR. -/
def crc32_mpeg2 (bytes : List Nat) : Nat :=
  bytes.foldl crc32_feed 0xFFFFFFFF

/-- printf "%02d" for the values used by the sources (version numbers,
descriptor indices). -/
def sprintf02d (n : Nat) : String :=
  if n < 10 then "0" ++ toString n else toString n

/-- printf "%#04x": lowercase hex with a "0x" prefix for nonzero values,
zero-padded to a total field width of 4 characters (the width counts the
"0x" prefix; printf omits the prefix when the value is 0). -/
def sprintfHash04x (n : Nat) : String :=
  if n = 0 then "0000"
  else
    let ds := Nat.toDigits 16 n
    "0x" ++ String.mk (List.replicate (2 - ds.length) '0' ++ ds)

/-- Modelled from the spec: the fixed directory names of demuxfs.h. -/
def FS_PAT_NAME : String := "PAT"

/-- Modelled from the spec: demuxfs.h directory name. -/
def FS_PMT_NAME : String := "PMT"

/-- Modelled from the spec: demuxfs.h directory name. -/
def FS_NIT_NAME : String := "NIT"

/-- Modelled from the spec: demuxfs.h symlink name for the active version. -/
def FS_CURRENT_NAME : String := "Current"

/-- Modelled from the spec: demuxfs.h name of the PAT programs directory. -/
def FS_PROGRAMS_NAME : String := "Programs"

/-- Modelled from the spec: fsutils_create_version_dir names version
directories "V%02d". -/
def version_dir_name (v : Nat) : String :=
  "V" ++ sprintf02d v

/-- File kinds of a dentry (S_IFDIR / S_IFREG / S_IFLNK of the mode). -/
inductive DMode where
  | dir
  | file
  | symlink
deriving DecidableEq, Repr

/-- Modelled from the spec: the dentry node of demuxfs.h — name, mode,
content (file body or symlink target), inode and children. -/
structure Dentry where
  name : String
  mode : DMode
  contents : String
  inode : Nat
  children : List Dentry

instance : Inhabited Dentry := ⟨⟨"", DMode.dir, "", 0, []⟩⟩

/-- A numeric leaf file (CREATE_FILE_NUMBER): decimal rendering as content. -/
def mkFileNumber (n : String) (v : Nat) : Dentry :=
  ⟨n, DMode.file, toString v, 0, []⟩

/-- A binary leaf file (CREATE_FILE_BIN): raw bytes as content. -/
def mkFileBin (n : String) (bs : List Nat) : Dentry :=
  ⟨n, DMode.file, toString bs, 0, []⟩

/-- Modelled from the spec: fsutils_get_child — child lookup by name
(fsutils.c is not available). -/
def fsutils_get_child (d : Dentry) (n : String) : Option Dentry :=
  d.children.find? (fun c => c.name == n)

/-- Modelled from the spec: one step of fsutils_migrate_children — a child
of the old root is reparented to the new root exactly when the new root has
no child of the same name. -/
def migrate_step (nr : Dentry) (c : Dentry) : Dentry :=
  if (fsutils_get_child nr c.name).isSome then nr
  else { nr with children := nr.children ++ [c] }

/-- Modelled from the spec: fsutils_migrate_children iterates the children
of the old root, reparenting each one whose name the new root lacks. -/
def fsutils_migrate_children (oldRoot newRoot : Dentry) : Dentry :=
  oldRoot.children.foldl migrate_step newRoot

/-- Modelled from the spec: path resolution step of fsutils_get_dentry; a
symlink component is replaced by the sibling its target names (targets are
interpreted relative to the link's directory). -/
def resolve_component (d : Dentry) (comp : String) : Option Dentry :=
  (fsutils_get_child d comp).bind fun c =>
    if c.mode = DMode.symlink then fsutils_get_child d c.contents else some c

/-- Modelled from the spec: fsutils_get_dentry resolves a path, component
by component, from the given root. -/
def fsutils_get_dentry (root : Dentry) (path : List String) : Option Dentry :=
  path.foldl (fun od comp => od.bind fun d => resolve_component d comp) (some root)

/-- The decoded eight-byte PSI common header (tables/psi.h). -/
structure PsiHeader where
  table_id : Nat
  section_syntax_indicator : Nat
  section_length : Nat
  transport_stream_id : Nat
  version_number : Nat
  current_next_indicator : Nat
  section_number : Nat
  last_section_number : Nat
deriving DecidableEq, Repr

/-- The 12-bit section_length of a PSI section:
`((payload[1] & 0x0F) << 8) | payload[2]`. -/
def psi_section_length (payload : List Nat) : Nat :=
  byteAt payload 1 % 16 * 256 + byteAt payload 2

/-- Offset of the CRC32: the section spans `3 + section_length` bytes and
the CRC is its last four. -/
def psi_crc_start (payload : List Nat) : Nat :=
  3 + psi_section_length payload - 4

/-- Modelled from the spec: psi_parse (psi.c is not available).  Decodes the
eight-byte common header (section 4.3 of the spec): table_id, syntax
indicator, 12-bit section_length, transport_stream_id, 5-bit version_number,
current_next_indicator, section_number, last_section_number.  Validates
table_id <= 0xBF, section_length <= 0x3FD, that the section fits in the
payload, and the CRC32/MPEG2 of the section against its last four bytes.
Returns none where the C function returns a negative status. -/
def psi_parse (payload : List Nat) (payloadLen : Nat) : Option PsiHeader :=
  if 8 ≤ payloadLen ∧ byteAt payload 0 ≤ 0xBF ∧ 4 ≤ psi_section_length payload ∧
     psi_section_length payload ≤ 0x3FD ∧ 3 + psi_section_length payload ≤ payloadLen ∧
     crc32_mpeg2 ((List.range (psi_crc_start payload)).map (byteAt payload)) =
       CONVERT_TO_32 (byteAt payload (psi_crc_start payload))
         (byteAt payload (psi_crc_start payload + 1))
         (byteAt payload (psi_crc_start payload + 2))
         (byteAt payload (psi_crc_start payload + 3))
  then some
    { table_id := byteAt payload 0
      section_syntax_indicator := byteAt payload 1 / 128
      section_length := psi_section_length payload
      transport_stream_id := CONVERT_TO_16 (byteAt payload 3) (byteAt payload 4)
      version_number := byteAt payload 5 / 2 % 32
      current_next_indicator := byteAt payload 5 % 2
      section_number := byteAt payload 6
      last_section_number := byteAt payload 7 }
  else none

/-- TS_PACKET_HASH_KEY of ts.h:
`(((ts_header)->pid & 0xffff) << 8) | header->table_id`. -/
def TS_PACKET_HASH_KEY (pid table_id : Nat) : Nat :=
  ((pid &&& 0xffff) <<< 8) ||| table_id

/-- One program entry of the PAT loop.  Modelled from the spec: pat.h is
not available; the spec gives the layout {program_number: u16, reserved:3,
pid:13}, so the reserved field holds 3 bits. -/
structure PatProgram where
  program_number : Nat
  reserved : Nat
  pid : Nat
deriving DecidableEq, Repr

instance : Inhabited PatProgram := ⟨⟨0, 0, 0⟩⟩

/-- The PAT table object (tables/pat.h modelled from the spec): PSI common
header fields, the program loop, and the top-level dentry. -/
structure PatTable where
  table_id : Nat
  section_syntax_indicator : Nat
  section_length : Nat
  transport_stream_id : Nat
  version_number : Nat
  current_next_indicator : Nat
  section_number : Nat
  last_section_number : Nat
  num_programs : Nat
  programs : List PatProgram
  dentry : Dentry

instance : Inhabited PatTable :=
  ⟨⟨0, 0, 0, 0, 0, 0, 0, 0, 0, [], default⟩⟩

/-- The parse functions that pat_populate can register in psi_parsers. -/
inductive ParserTag where
  | pat_parse_fn
  | pmt_parse_fn
  | nit_parse_fn
deriving DecidableEq, Repr

/-- Modelled from the spec: the shared state of demuxfs_data that pat.c
touches — the dentry root, psi_tables (key → table object) and psi_parsers
(PID → parse function). -/
structure DemuxState where
  root : Dentry
  psi_tables : Nat → Option PatTable
  psi_parsers : Nat → Option ParserTag

/-- Modelled from the spec: hash.c is not available; hashtable_add on an
integer-keyed map replaces the entry under the key (hashtable_del followed
by hashtable_add under the same key is a single replacement). -/
def hashtable_update {α : Type} (f : Nat → Option α) (k : Nat) (v : Option α) :
    Nat → Option α :=
  fun x => if x = k then v else f x

/-- pat_parse: `num_programs = (section_length - 2 - 1 - 1 - 1 - 4) / 4`,
computed in C `int` arithmetic (division truncating toward zero) and then
converted to the `uint16_t` field, i.e. reduced mod 2^16. -/
def pat_num_programs (section_length : Nat) : Nat :=
  (Int.emod (Int.tdiv ((section_length : Int) - 2 - 1 - 1 - 1 - 4) 4) 65536).toNat

/-- The program-entry loop of pat_parse: entry i is read at offset
`8 + i * 4`; `program_number = CONVERT_TO_16(payload[off], payload[off+1])`;
`reserved = payload[off+2] >> 4` truncated to the 3-bit struct field; `pid =
CONVERT_TO_16(payload[off+2], payload[off+3]) & 0x1fff`. -/
def pat_parse_programs (payload : List Nat) (num : Nat) : List PatProgram :=
  (List.range num).map fun i =>
    let offset := 8 + i * 4
    { program_number := CONVERT_TO_16 (byteAt payload offset) (byteAt payload (offset + 1))
      reserved := byteAt payload (offset + 2) / 16 % 8
      pid := CONVERT_TO_16 (byteAt payload (offset + 2)) (byteAt payload (offset + 3)) % 8192 }

/-- Modelled from the spec: psi_populate (psi.c is not available) fills the
version directory with one leaf per PSI common-header field. -/
def psi_populate (pat : PatTable) : List Dentry :=
  [ mkFileNumber "table_id" pat.table_id
  , mkFileNumber "section_syntax_indicator" pat.section_syntax_indicator
  , mkFileNumber "section_length" pat.section_length
  , mkFileNumber "transport_stream_id" pat.transport_stream_id
  , mkFileNumber "version_number" pat.version_number
  , mkFileNumber "current_next_indicator" pat.current_next_indicator
  , mkFileNumber "section_number" pat.section_number
  , mkFileNumber "last_section_number" pat.last_section_number ]

/-- pat_populate, symlink target: `"../../../%s/%s"` with NIT/Current for
program_number 0, else `"../../../%s/%#04x/%s"` with PMT, the PID and
Current. -/
def pat_program_target (pr : PatProgram) : String :=
  if pr.program_number = 0 then
    "../../../" ++ FS_NIT_NAME ++ "/" ++ FS_CURRENT_NAME
  else
    "../../../" ++ FS_PMT_NAME ++ "/" ++ sprintfHash04x pr.pid ++ "/" ++ FS_CURRENT_NAME

/-- pat_populate, symlink creation: the link is named `"%#04x"` of the
program_number and points at the target above. -/
def pat_program_symlink (pr : PatProgram) : Dentry :=
  ⟨sprintfHash04x pr.program_number, DMode.symlink, pat_program_target pr, 0, []⟩

/-- pat_populate, dentry part: the "Programs" directory holding one symlink
per program entry. -/
def pat_programs_dentry (programs : List PatProgram) : Dentry :=
  ⟨FS_PROGRAMS_NAME, DMode.dir, "", 0, programs.map pat_program_symlink⟩

/-- The parser pat_populate registers for a program entry: nit_parse for
program_number 0, pmt_parse otherwise. -/
def parser_for (pr : PatProgram) : ParserTag :=
  if pr.program_number = 0 then ParserTag.nit_parse_fn else ParserTag.pmt_parse_fn

/-- pat_populate, dispatcher part: for each program entry the code probes
`hashtable_get(priv->psi_tables, pid)` (note: psi_tables, not psi_parsers)
and, when that probe misses, registers nit_parse for program_number 0 and
pmt_parse otherwise in psi_parsers. -/
def pat_register_parsers (programs : List PatProgram)
    (tables : Nat → Option PatTable) (parsers : Nat → Option ParserTag) :
    Nat → Option ParserTag :=
  programs.foldl
    (fun ps pr =>
      if (tables pr.pid).isSome then ps
      else hashtable_update ps pr.pid (some (parser_for pr)))
    parsers

/-- pat_create_directory, version directory: fsutils_create_version_dir
creates "V%02d" (modelled from the spec) and psi_populate plus pat_populate
fill it. -/
def pat_version_dentry (pat : PatTable) : Dentry :=
  ⟨version_dir_name pat.version_number, DMode.dir, "", 0,
    psi_populate pat ++ [pat_programs_dentry pat.programs]⟩

/-- pat_create_directory, top dentry: the "PAT" directory (inode already set
to the hash key by pat_parse) holding the version directory and the
"Current" symlink that fsutils_create_version_dir retargets to "V%02d". -/
def pat_top_dentry (key : Nat) (pat : PatTable) : Dentry :=
  ⟨FS_PAT_NAME, DMode.dir, "", key,
    [pat_version_dentry pat,
     ⟨FS_CURRENT_NAME, DMode.symlink, version_dir_name pat.version_number, 0, []⟩]⟩

/-- pat_parse, construction of the private PAT object: the PSI common header
copied by psi_parse, the program loop, and the dentry subtree built by
pat_create_directory. -/
def pat_build (hpid : Nat) (h : PsiHeader) (payload : List Nat) : PatTable :=
  let num := pat_num_programs h.section_length
  let pat0 : PatTable :=
    { table_id := h.table_id
      section_syntax_indicator := h.section_syntax_indicator
      section_length := h.section_length
      transport_stream_id := h.transport_stream_id
      version_number := h.version_number
      current_next_indicator := h.current_next_indicator
      section_number := h.section_number
      last_section_number := h.last_section_number
      num_programs := num
      programs := pat_parse_programs payload num
      dentry := default }
  { pat0 with dentry := pat_top_dentry (TS_PACKET_HASH_KEY hpid h.table_id) pat0 }

/-- Removes the first child matching the predicate: the effect of
fsutils_dispose_tree (modelled from the spec) unlinking the superseded
"PAT" dentry from the root's child list. -/
def eraseFirstBy (p : Dentry → Bool) : List Dentry → List Dentry
  | [] => []
  | c :: cs => if p c then cs else c :: eraseFirstBy p cs

/-- The accepting tail of pat_parse (from pat_create_directory on): attach
the new top dentry to the root, register parsers; when an older version was
hashed under the key, migrate its top-level children into the new top
dentry, dispose the old tree (unlink from the root) and delete the old hash
entry; finally install the new object under the key.  In the C code the new
top is appended to the root's children before the old one is unlinked, so
the surviving list is the original minus the old top, with the new top
last. -/
def pat_accept (hpid : Nat) (h : PsiHeader) (payload : List Nat) (s : DemuxState) :
    DemuxState :=
  let key := TS_PACKET_HASH_KEY hpid h.table_id
  let pat := pat_build hpid h payload
  let parsers := pat_register_parsers pat.programs s.psi_tables s.psi_parsers
  (s.psi_tables key).elim
    { root := { s.root with children := s.root.children ++ [pat.dentry] }
      psi_tables := hashtable_update s.psi_tables key (some pat)
      psi_parsers := parsers }
    fun current =>
      let finalTop := fsutils_migrate_children current.dentry pat.dentry
      { root := { s.root with
          children :=
            eraseFirstBy (fun c => c.name == FS_PAT_NAME && c.inode == key)
              s.root.children ++ [finalTop] }
        psi_tables := hashtable_update s.psi_tables key (some { pat with dentry := finalTop })
        psi_parsers := parsers }

/-- The discard checks of pat_parse after psi_parse succeeded:
`if (!pat->current_next_indicator || (current_pat && current_pat->version_number == pat->version_number)) return 0;`. -/
def pat_check (hpid : Nat) (h : PsiHeader) (payload : List Nat) (s : DemuxState) :
    DemuxState :=
  if h.current_next_indicator = 0 then s
  else
    (s.psi_tables (TS_PACKET_HASH_KEY hpid h.table_id)).elim
      (pat_accept hpid h payload s)
      fun current =>
        if current.version_number = h.version_number then s
        else pat_accept hpid h payload s

/-- pat_parse: run psi_parse; on failure (`ret < 0`) free the private
object and return with no shared-state change, else continue with the
version checks and the accepting tail. -/
def pat_parse (hpid : Nat) (payload : List Nat) (payloadLen : Nat) (s : DemuxState) :
    DemuxState :=
  (psi_parse payload payloadLen).elim s fun h => pat_check hpid h payload s

/-- pat_announces_service: resolve "/PAT/Current/Programs" from the root;
if the path does not resolve, warn and return false; otherwise report
whether a child named "%#04x" of the service_id exists.  The function
returns the state unchanged (the C body performs no writes). -/
def pat_announces_service (service_id : Nat) (s : DemuxState) : Bool × DemuxState :=
  (match fsutils_get_dentry s.root [FS_PAT_NAME, FS_CURRENT_NAME, FS_PROGRAMS_NAME] with
   | none => false
   | some pat_programs => (fsutils_get_child pat_programs (sprintfHash04x service_id)).isSome,
   s)

/-- The DSM-CC sub-descriptor (tables/dsmcc.h modelled from the spec):
{sub_descriptor_type (1), sub_descriptor_length (1), additional_information}. -/
structure DsmccSubDescriptor where
  sub_descriptor_type : Nat
  sub_descriptor_length : Nat
  additional_information : List Nat
deriving DecidableEq, Repr

instance : Inhabited DsmccSubDescriptor := ⟨⟨0, 0, []⟩⟩

/-- One descriptor of the DSM-CC compatibility descriptor (tables/dsmcc.h
modelled from the spec). -/
structure DsmccDescriptor where
  descriptor_type : Nat
  descriptor_length : Nat
  specifier_type : Nat
  specifier_data : List Nat
  model : Nat
  version : Nat
  sub_descriptor_count : Nat
  sub_descriptors : List DsmccSubDescriptor
deriving DecidableEq, Repr

instance : Inhabited DsmccDescriptor := ⟨⟨0, 0, 0, [], 0, 0, 0, []⟩⟩

/-- The DSM-CC compatibility descriptor (tables/dsmcc.h modelled from the
spec). -/
structure DsmccCompatibilityDescriptor where
  compatibility_descriptor_length : Nat
  descriptor_count : Nat
  descriptors : List DsmccDescriptor
deriving DecidableEq, Repr

/-- dsmcc_create_compatibility_descriptor_dentries: two leaves for the
totals, then one directory "descriptor_%02d" per count.  The C loop body
dereferences `cd->descriptors` — always the FIRST array element — for every
i: each directory receives descriptor 0's leaves and descriptor 0's
sub_descriptor_count sub-directories "sub_descriptor_%02d" filled from
descriptor 0's sub_descriptors array. -/
def dsmcc_create_compatibility_descriptor_dentries
    (cd : DsmccCompatibilityDescriptor) (parent : Dentry) : Dentry :=
  let d0 := cd.descriptors.headD default
  let subDirs := (List.range d0.sub_descriptor_count).map fun k =>
    let sub := d0.sub_descriptors.getD k default
    Dentry.mk ("sub_descriptor_" ++ sprintf02d (k + 1)) DMode.dir "" 0
      ([ mkFileNumber "sub_descriptor_type" sub.sub_descriptor_type
       , mkFileNumber "sub_descriptor_length" sub.sub_descriptor_length ] ++
       if sub.sub_descriptor_length ≠ 0 then
         [mkFileBin "additional_information" sub.additional_information]
       else [])
  let descDirs := (List.range cd.descriptor_count).map fun i =>
    Dentry.mk ("descriptor_" ++ sprintf02d (i + 1)) DMode.dir "" 0
      ([ mkFileNumber "descriptor_type" d0.descriptor_type
       , mkFileNumber "descriptor_length" d0.descriptor_length
       , mkFileNumber "specifier_type" d0.specifier_type
       , mkFileBin "specifier_data" (d0.specifier_data.take 3)
       , mkFileNumber "model" d0.model
       , mkFileNumber "version" d0.version
       , mkFileNumber "sub_descriptor_count" d0.sub_descriptor_count ] ++ subDirs)
  { parent with children := parent.children ++
      [ mkFileNumber "compatibility_descriptor_length" cd.compatibility_descriptor_length
      , mkFileNumber "descriptor_count" cd.descriptor_count ] ++ descDirs }

/-- The DSM-CC message header (tables/dsmcc.h modelled from the spec). -/
structure DsmccMessageHeader where
  protocol_discriminator : Nat
  dsmcc_type : Nat
  message_id : Nat
  transaction_id : Nat
  reserved : Nat
  adaptation_length : Nat
  message_length : Nat
  adaptation_type : Nat
  adaptation_data_bytes : List Nat
deriving DecidableEq, Repr

/-- dsmcc_parse_message_header: the twelve fixed bytes starting at `index`;
when adaptation_length is nonzero, adaptation_type is the byte at
`index + 12` and adaptation_length data bytes follow from `index + 13`.
Returns `index + 12` regardless.  Fields the C code leaves untouched when
adaptation_length is 0 are modelled as 0 / []. -/
def dsmcc_parse_message_header (payload : List Nat) (index : Nat) :
    DsmccMessageHeader × Nat :=
  let b := byteAt payload
  let i := index
  let alen := b (i + 9)
  ({ protocol_discriminator := b i
     dsmcc_type := b (i + 1)
     message_id := CONVERT_TO_16 (b (i + 2)) (b (i + 3))
     transaction_id := CONVERT_TO_32 (b (i + 4)) (b (i + 5)) (b (i + 6)) (b (i + 7))
     reserved := b (i + 8)
     adaptation_length := alen
     message_length := CONVERT_TO_16 (b (i + 10)) (b (i + 11))
     adaptation_type := if alen ≠ 0 then b (i + 12) else 0
     adaptation_data_bytes :=
       if alen ≠ 0 then (List.range alen).map (fun j => b (i + 13 + j)) else [] },
   i + 12)

/-- A PAT section (pid 0, table_id 0): version 0, current, one program
{program_number 1, reserved bits 111, pid 0x100}, with a valid
CRC32/MPEG2 in its last four bytes. -/
def patPayloadV0 : List Nat :=
  [0x00, 0xB0, 0x0D, 0x00, 0x01, 0xC1, 0x00, 0x00,
   0x00, 0x01, 0xE1, 0x00, 0xE8, 0xF9, 0x5E, 0x7D]

/-- A PAT section superseding patPayloadV0: version 1, one program
{program_number 2, pid 0x200}, valid CRC. -/
def patPayloadV1 : List Nat :=
  [0x00, 0xB0, 0x0D, 0x00, 0x01, 0xC3, 0x00, 0x00,
   0x00, 0x02, 0xE2, 0x00, 0x06, 0xD5, 0x24, 0x05]

/-- A PAT section, version 1, announcing program_number 2 on PID 0 — the
PID that patPayloadV0's acceptance hashed a table under (key 0). -/
def patPayloadPid0 : List Nat :=
  [0x00, 0xB0, 0x0D, 0x00, 0x01, 0xC3, 0x00, 0x00,
   0x00, 0x02, 0xE0, 0x00, 0xA6, 0x27, 0xBA, 0x0A]

/-- The empty demuxfs state: a bare root, no tables, no parsers. -/
def initState : DemuxState :=
  ⟨⟨"/", DMode.dir, "", 0, []⟩, fun _ => none, fun _ => none⟩

/-- The state after feeding patPayloadV0 on PID 0. -/
def stateV0 : DemuxState := pat_parse 0 patPayloadV0 16 initState

/-- The PAT table object stored by the first feed. -/
def patTableV0 : PatTable := (stateV0.psi_tables 0).getD default

/-- The PSI common header of patPayloadV0 as psi_parse decodes it. -/
def psiHeaderV0 : PsiHeader := ⟨0, 1, 13, 1, 0, 1, 0, 0⟩

/-- The PSI common header of patPayloadV1 / patPayloadPid0. -/
def psiHeaderV1 : PsiHeader := ⟨0, 1, 13, 1, 1, 1, 0, 0⟩

/-- The table object pat_parse installs under the hash key when a section
is accepted: the freshly built object, its dentry enlarged by migration
when an older version was hashed under the same key. -/
def pat_stored (hpid : Nat) (h : PsiHeader) (payload : List Nat) (s : DemuxState) :
    PatTable :=
  let pat := pat_build hpid h payload
  (s.psi_tables (TS_PACKET_HASH_KEY hpid h.table_id)).elim pat
    fun current => { pat with dentry := fsutils_migrate_children current.dentry pat.dentry }

/-- A DSM-CC message header payload: adaptation_length 1, adaptation_type 9
at offset 12 followed by one further data byte (7) at offset 13. -/
def dsmccPayload : List Nat := [0x11, 0x03, 0x10, 0x02, 0, 0, 0, 4, 0xFF, 1, 0, 5, 9, 7]

/-- The failing DSM-CC compatibility descriptor of the claim:
descriptor_count = 2, sub_descriptor_count = (1, 0). -/
def cdExample : DsmccCompatibilityDescriptor :=
  ⟨11, 2,
   [⟨1, 9, 1, [0, 0, 1], 2, 3, 1, [⟨5, 0, []⟩]⟩,
    ⟨2, 5, 2, [0, 0, 2], 4, 5, 0, []⟩]⟩

theorem psi_parse_table_id_lt {payload : List Nat} {n : Nat} {h : PsiHeader}
    (hps : psi_parse payload n = some h) : h.table_id < 256 := by
  unfold psi_parse at hps
  split at hps
  · cases hps
    exact Nat.mod_lt _ (by norm_num)
  · cases hps

theorem psi_parse_section_length_le {payload : List Nat} {n : Nat} {h : PsiHeader}
    (hps : psi_parse payload n = some h) : h.section_length ≤ 0x3FD := by
  unfold psi_parse at hps
  split at hps
  · rename_i hcond
    cases hps
    exact hcond.2.2.2.1
  · cases hps

theorem pat_parse_accept_eq {hpid : Nat} {payload : List Nat} {n : Nat} {s : DemuxState}
    {h : PsiHeader}
    (hps : psi_parse payload n = some h)
    (hcni : h.current_next_indicator ≠ 0)
    (hver : ∀ old, s.psi_tables (TS_PACKET_HASH_KEY hpid h.table_id) = some old →
      old.version_number ≠ h.version_number) :
    pat_parse hpid payload n s = pat_accept hpid h payload s := by
  unfold pat_parse
  rw [hps]
  show pat_check hpid h payload s = pat_accept hpid h payload s
  unfold pat_check
  rw [if_neg hcni]
  cases hc : s.psi_tables (TS_PACKET_HASH_KEY hpid h.table_id) with
  | none => rfl
  | some old =>
    show (if old.version_number = h.version_number then s else pat_accept hpid h payload s) =
      pat_accept hpid h payload s
    rw [if_neg (hver old hc)]

theorem pat_accept_psi_tables (hpid : Nat) (h : PsiHeader) (payload : List Nat)
    (s : DemuxState) :
    (pat_accept hpid h payload s).psi_tables =
      hashtable_update s.psi_tables (TS_PACKET_HASH_KEY hpid h.table_id)
        (some (pat_stored hpid h payload s)) := by
  unfold pat_accept pat_stored
  cases hc : s.psi_tables (TS_PACKET_HASH_KEY hpid h.table_id) <;> simp [hc]

theorem pat_accept_psi_parsers (hpid : Nat) (h : PsiHeader) (payload : List Nat)
    (s : DemuxState) :
    (pat_accept hpid h payload s).psi_parsers =
      pat_register_parsers (pat_build hpid h payload).programs s.psi_tables s.psi_parsers := by
  unfold pat_accept
  cases hc : s.psi_tables (TS_PACKET_HASH_KEY hpid h.table_id) <;> simp [hc]

theorem pat_stored_version (hpid : Nat) (h : PsiHeader) (payload : List Nat)
    (s : DemuxState) :
    (pat_stored hpid h payload s).version_number = h.version_number := by
  unfold pat_stored pat_build
  cases s.psi_tables (TS_PACKET_HASH_KEY hpid h.table_id) <;> simp

theorem pat_stored_programs (hpid : Nat) (h : PsiHeader) (payload : List Nat)
    (s : DemuxState) :
    (pat_stored hpid h payload s).programs =
      pat_parse_programs payload (pat_num_programs h.section_length) := by
  unfold pat_stored pat_build
  cases s.psi_tables (TS_PACKET_HASH_KEY hpid h.table_id) <;> simp

theorem pat_stored_num_programs (hpid : Nat) (h : PsiHeader) (payload : List Nat)
    (s : DemuxState) :
    (pat_stored hpid h payload s).num_programs = pat_num_programs h.section_length := by
  unfold pat_stored pat_build
  cases s.psi_tables (TS_PACKET_HASH_KEY hpid h.table_id) <;> simp

theorem pat_check_accepted_again (hpid : Nat) (h : PsiHeader) (payload : List Nat)
    (s : DemuxState) (hcni : h.current_next_indicator ≠ 0) :
    pat_check hpid h payload (pat_accept hpid h payload s) = pat_accept hpid h payload s := by
  have h2 : (pat_accept hpid h payload s).psi_tables (TS_PACKET_HASH_KEY hpid h.table_id) =
      some (pat_stored hpid h payload s) := by
    rw [pat_accept_psi_tables]
    simp [hashtable_update]
  unfold pat_check
  rw [if_neg hcni, h2]
  show (if (pat_stored hpid h payload s).version_number = h.version_number then
    pat_accept hpid h payload s else _) = pat_accept hpid h payload s
  rw [if_pos (pat_stored_version hpid h payload s)]

theorem pat_parse_idem (hpid : Nat) (payload : List Nat) (n : Nat) (s : DemuxState) :
    pat_parse hpid payload n (pat_parse hpid payload n s) = pat_parse hpid payload n s := by
  cases hps : psi_parse payload n with
  | none => unfold pat_parse; rw [hps]; rfl
  | some h =>
    unfold pat_parse
    rw [hps]
    show pat_check hpid h payload (pat_check hpid h payload s) = pat_check hpid h payload s
    by_cases hcni : h.current_next_indicator = 0
    · unfold pat_check; rw [if_pos hcni, if_pos hcni]
    · cases hc : s.psi_tables (TS_PACKET_HASH_KEY hpid h.table_id) with
      | some old =>
        by_cases hv : old.version_number = h.version_number
        · have h1 : pat_check hpid h payload s = s := by
            unfold pat_check
            rw [if_neg hcni, hc]
            show (if old.version_number = h.version_number then s else _) = s
            rw [if_pos hv]
          rw [h1]
          exact h1
        · have h1 : pat_check hpid h payload s = pat_accept hpid h payload s := by
            unfold pat_check
            rw [if_neg hcni, hc]
            show (if old.version_number = h.version_number then s
              else pat_accept hpid h payload s) = pat_accept hpid h payload s
            rw [if_neg hv]
          rw [h1]
          exact pat_check_accepted_again hpid h payload s hcni
      | none =>
        have h1 : pat_check hpid h payload s = pat_accept hpid h payload s := by
          unfold pat_check
          rw [if_neg hcni, hc]
          rfl
        rw [h1]
        exact pat_check_accepted_again hpid h payload s hcni

theorem migrate_step_found {nr : Dentry} {c : Dentry} {m : String} {x : Dentry}
    (hfound : fsutils_get_child nr m = some x) :
    fsutils_get_child (migrate_step nr c) m = some x := by
  unfold migrate_step
  split
  · exact hfound
  · unfold fsutils_get_child at hfound ⊢
    simp only [List.find?_append, hfound, Option.or_some]

theorem foldl_migrate_found {m : String} {x : Dentry} :
    ∀ (cs : List Dentry) (nr : Dentry), fsutils_get_child nr m = some x →
      fsutils_get_child (cs.foldl migrate_step nr) m = some x
  | [], _, hfound => hfound
  | c :: cs, nr, hfound =>
    foldl_migrate_found cs (migrate_step nr c) (migrate_step_found hfound)

theorem migrate_step_none {nr : Dentry} {c : Dentry} {m : String}
    (hne : (c.name == m) = false) (hnone : fsutils_get_child nr m = none) :
    fsutils_get_child (migrate_step nr c) m = none := by
  unfold migrate_step
  split
  · exact hnone
  · unfold fsutils_get_child at hnone ⊢
    simp only [List.find?_append, hnone, Option.none_or, List.find?_singleton, hne,
      Bool.false_eq_true, if_false]

theorem foldl_migrate_reaches {c : Dentry} :
    ∀ (cs : List Dentry) (nr : Dentry), (cs.map Dentry.name).Nodup → c ∈ cs →
      fsutils_get_child nr c.name = none →
      fsutils_get_child (cs.foldl migrate_step nr) c.name = some c := by
  intro cs
  induction cs with
  | nil => intro nr _ hmem _; cases hmem
  | cons d cs ih =>
    intro nr hnodup hmem hnone
    rcases List.mem_cons.mp hmem with heq | hmem2
    · subst heq
      have hstep : migrate_step nr c = { nr with children := nr.children ++ [c] } := by
        unfold migrate_step
        rw [if_neg]
        simp [hnone]
      have hfound : fsutils_get_child (migrate_step nr c) c.name = some c := by
        rw [hstep]
        unfold fsutils_get_child at hnone ⊢
        simp [List.find?_append, hnone]
      exact foldl_migrate_found cs _ hfound
    · have hne : (d.name == c.name) = false := by
        have hnmem : d.name ∉ cs.map Dentry.name := (List.nodup_cons.mp hnodup).1
        have : c.name ∈ cs.map Dentry.name := List.mem_map_of_mem _ hmem2
        simp only [beq_eq_false_iff_ne, ne_eq]
        intro hcontra
        exact hnmem (hcontra ▸ this)
      exact ih (migrate_step nr d) (List.nodup_cons.mp hnodup).2 hmem2
        (migrate_step_none hne hnone)

theorem migrate_children_reaches {old new : Dentry} {c : Dentry}
    (hnodup : (old.children.map Dentry.name).Nodup) (hmem : c ∈ old.children)
    (hnone : fsutils_get_child new c.name = none) :
    fsutils_get_child (fsutils_migrate_children old new) c.name = some c :=
  foldl_migrate_reaches old.children new hnodup hmem hnone

theorem migrate_children_found {old new : Dentry} {m : String} {x : Dentry}
    (hfound : fsutils_get_child new m = some x) :
    fsutils_get_child (fsutils_migrate_children old new) m = some x :=
  foldl_migrate_found old.children new hfound

theorem migrate_step_inode (nr c : Dentry) : (migrate_step nr c).inode = nr.inode := by
  unfold migrate_step
  split <;> rfl

theorem foldl_migrate_inode :
    ∀ (cs : List Dentry) (nr : Dentry), (cs.foldl migrate_step nr).inode = nr.inode
  | [], _ => rfl
  | c :: cs, nr => (foldl_migrate_inode cs (migrate_step nr c)).trans (migrate_step_inode nr c)

theorem migrate_children_inode (old new : Dentry) :
    (fsutils_migrate_children old new).inode = new.inode :=
  foldl_migrate_inode old.children new

theorem pat_register_parsers_cons (e : PatProgram) (cs : List PatProgram)
    (tables : Nat → Option PatTable) (ps : Nat → Option ParserTag) :
    pat_register_parsers (e :: cs) tables ps =
      pat_register_parsers cs tables
        (if (tables e.pid).isSome then ps
         else hashtable_update ps e.pid (some (parser_for e))) := rfl

theorem register_parsers_preserves {q : Nat} {t : ParserTag} :
    ∀ (cs : List PatProgram) (tables : Nat → Option PatTable)
      (ps : Nat → Option ParserTag),
      ps q = some t → (∀ e ∈ cs, e.pid = q → parser_for e = t) →
      pat_register_parsers cs tables ps q = some t := by
  intro cs
  induction cs with
  | nil => intro _ _ hps _; exact hps
  | cons e cs ih =>
    intro tables ps hps hagree
    rw [pat_register_parsers_cons]
    apply ih tables _ ?_ (fun x hx hpid => hagree x (List.mem_cons_of_mem e hx) hpid)
    by_cases hsome : (tables e.pid).isSome
    · rw [if_pos hsome]; exact hps
    · rw [if_neg hsome]
      unfold hashtable_update
      by_cases heq : q = e.pid
      · rw [if_pos heq, hagree e (List.mem_cons_self e cs) heq.symm]
      · rw [if_neg heq]; exact hps

theorem register_parsers_sets {q : Nat} {pr : PatProgram} :
    ∀ (cs : List PatProgram) (tables : Nat → Option PatTable)
      (ps : Nat → Option ParserTag),
      tables q = none → pr ∈ cs → pr.pid = q →
      (∀ e ∈ cs, e.pid = q → parser_for e = parser_for pr) →
      pat_register_parsers cs tables ps q = some (parser_for pr) := by
  intro cs
  induction cs with
  | nil => intro _ _ _ hmem; cases hmem
  | cons e cs ih =>
    intro tables ps hnone hmem hpid hagree
    by_cases heq : e.pid = q
    · rw [pat_register_parsers_cons]
      apply register_parsers_preserves cs tables _ ?_
        (fun x hx hxq =>
          (hagree x (List.mem_cons_of_mem e hx) hxq).trans rfl)
      rw [heq, hnone]
      simp only [Option.isSome_none, Bool.false_eq_true, if_false]
      unfold hashtable_update
      rw [if_pos rfl, hagree e (List.mem_cons_self e cs) heq]
    · have hmem2 : pr ∈ cs := by
        rcases List.mem_cons.mp hmem with hpr | hpr
        · exact absurd (hpr ▸ hpid) heq
        · exact hpr
      rw [pat_register_parsers_cons]
      exact ih tables _ hnone hmem2 hpid
        (fun x hx hxq => hagree x (List.mem_cons_of_mem e hx) hxq)

theorem list_map_getD {α β : Type} (f : α → β) (l : List α) (i : Nat) (d : α) (e : β)
    (hi : i < l.length) : (l.map f).getD i e = f (l.getD i d) := by
  rw [List.getD_eq_getElem?_getD, List.getD_eq_getElem?_getD, List.getElem?_map,
    List.getElem?_eq_getElem hi]
  rfl

theorem list_range_getD {n i d : Nat} (hi : i < n) : (List.range n).getD i d = i := by
  rw [List.getD_eq_getElem?_getD, List.getElem?_range hi]
  rfl

theorem pat_build_dentry_version (hpid : Nat) (h : PsiHeader) (payload : List Nat) :
    fsutils_get_child (pat_build hpid h payload).dentry (version_dir_name h.version_number) =
      some (pat_version_dentry (pat_build hpid h payload)) := by
  unfold fsutils_get_child
  show List.find? _ [pat_version_dentry (pat_build hpid h payload), _] = _
  rw [List.find?_cons_of_pos]
  show ((pat_version_dentry (pat_build hpid h payload)).name ==
    version_dir_name h.version_number) = true
  show (version_dir_name h.version_number == version_dir_name h.version_number) = true
  exact beq_self_eq_true _

theorem get_child_version_programs (pat : PatTable) :
    fsutils_get_child (pat_version_dentry pat) FS_PROGRAMS_NAME =
      some (pat_programs_dentry pat.programs) := by
  unfold fsutils_get_child pat_version_dentry psi_populate mkFileNumber
  simp [List.find?, FS_PROGRAMS_NAME, pat_programs_dentry]

theorem pat_stored_inode (hpid : Nat) (h : PsiHeader) (payload : List Nat) (s : DemuxState) :
    (pat_stored hpid h payload s).dentry.inode = TS_PACKET_HASH_KEY hpid h.table_id := by
  unfold pat_stored
  cases s.psi_tables (TS_PACKET_HASH_KEY hpid h.table_id) with
  | none =>
    show (pat_build hpid h payload).dentry.inode = _
    rfl
  | some current =>
    show (fsutils_migrate_children current.dentry (pat_build hpid h payload).dentry).inode = _
    rw [migrate_children_inode]
    rfl

theorem pat_stored_some {hpid : Nat} {h : PsiHeader} {payload : List Nat} {s : DemuxState}
    {current : PatTable}
    (hc : s.psi_tables (TS_PACKET_HASH_KEY hpid h.table_id) = some current) :
    pat_stored hpid h payload s =
      { pat_build hpid h payload with
        dentry := fsutils_migrate_children current.dentry (pat_build hpid h payload).dentry } := by
  unfold pat_stored
  rw [hc]
  rfl

theorem pat_accept_root_some {hpid : Nat} {h : PsiHeader} {payload : List Nat} {s : DemuxState}
    {current : PatTable}
    (hc : s.psi_tables (TS_PACKET_HASH_KEY hpid h.table_id) = some current) :
    (pat_accept hpid h payload s).root =
      { s.root with
        children :=
          eraseFirstBy (fun c => c.name == FS_PAT_NAME &&
              c.inode == TS_PACKET_HASH_KEY hpid h.table_id) s.root.children ++
            [fsutils_migrate_children current.dentry (pat_build hpid h payload).dentry] } := by
  unfold pat_accept
  simp only [hc, Option.elim]

/-- C1: when a PAT section is accepted and an older PAT (with a different
version_number) is hashed under the same key, pat_parse installs the new
object — its top dentry enlarged by fsutils_migrate_children from the old
top dentry — under that key, the root's children become the previous list
minus the disposed old top with the new top appended, and every child of
the old top dentry whose name does not appear among the new top dentry's
children (built by pat_create_directory, i.e. the new version directory and
the Current symlink) is reachable under the new top at the same relative
path (as a directly named child). -/
theorem pat_parse_supersedes_and_migrates
    (hpid : Nat) (payload : List Nat) (n : Nat) (s : DemuxState) (h : PsiHeader)
    (old : PatTable)
    (hps : psi_parse payload n = some h)
    (hcni : h.current_next_indicator ≠ 0)
    (hold : s.psi_tables (TS_PACKET_HASH_KEY hpid h.table_id) = some old)
    (hver : old.version_number ≠ h.version_number)
    (hnodup : (old.dentry.children.map Dentry.name).Nodup) :
    (pat_parse hpid payload n s).psi_tables (TS_PACKET_HASH_KEY hpid h.table_id) =
      some { pat_build hpid h payload with
             dentry := fsutils_migrate_children old.dentry (pat_build hpid h payload).dentry } ∧
    (pat_parse hpid payload n s).root.children =
      eraseFirstBy (fun c => c.name == FS_PAT_NAME &&
          c.inode == TS_PACKET_HASH_KEY hpid h.table_id) s.root.children ++
        [fsutils_migrate_children old.dentry (pat_build hpid h payload).dentry] ∧
    ∀ c ∈ old.dentry.children,
      fsutils_get_child (pat_build hpid h payload).dentry c.name = none →
        fsutils_get_child
          (fsutils_migrate_children old.dentry (pat_build hpid h payload).dentry) c.name =
          some c := by
  have hver2 : ∀ o, s.psi_tables (TS_PACKET_HASH_KEY hpid h.table_id) = some o →
      o.version_number ≠ h.version_number := by
    intro o ho
    rw [hold] at ho
    cases ho
    exact hver
  have hacc := pat_parse_accept_eq hps hcni hver2
  refine ⟨?_, ?_, ?_⟩
  · rw [hacc, pat_accept_psi_tables]
    unfold hashtable_update
    rw [if_pos rfl, pat_stored_some hold]
  · rw [hacc, pat_accept_root_some hold]
  · intro c hmem hnone
    exact migrate_children_reaches hnodup hmem hnone

theorem pat_parse_supersedes_and_migrates_witness :
    psi_parse patPayloadV1 16 = some psiHeaderV1 ∧
    stateV0.psi_tables (TS_PACKET_HASH_KEY 0 psiHeaderV1.table_id) = some patTableV0 ∧
    patTableV0.version_number ≠ psiHeaderV1.version_number ∧
    ((patTableV0.dentry.children.map Dentry.name).Nodup ∧
      (pat_parse 0 patPayloadV1 16 stateV0).psi_tables
          (TS_PACKET_HASH_KEY 0 psiHeaderV1.table_id) =
        some { pat_build 0 psiHeaderV1 patPayloadV1 with
               dentry := fsutils_migrate_children patTableV0.dentry
                 (pat_build 0 psiHeaderV1 patPayloadV1).dentry }) :=
  ⟨by decide, rfl, by decide, by decide,
   (pat_parse_supersedes_and_migrates 0 patPayloadV1 16 stateV0 psiHeaderV1 patTableV0
      (by decide) (by decide) rfl (by decide) (by decide)).1⟩

/-- C2: pat_parse leaves the shared state untouched when psi_parse fails,
when current_next_indicator is 0, or when a table with the same
version_number is already hashed under the key; and feeding the same
section twice is the same as feeding it once (the second delivery is a
no-op), so exactly one version directory results. -/
theorem pat_parse_discard_no_change
    (hpid : Nat) (payload : List Nat) (n : Nat) (s : DemuxState)
    (hdisc : psi_parse payload n = none ∨
      ∃ h, psi_parse payload n = some h ∧
        (h.current_next_indicator = 0 ∨
         ∃ old, s.psi_tables (TS_PACKET_HASH_KEY hpid h.table_id) = some old ∧
           old.version_number = h.version_number)) :
    pat_parse hpid payload n s = s ∧
    pat_parse hpid payload n (pat_parse hpid payload n s) = pat_parse hpid payload n s := by
  constructor
  · rcases hdisc with hnone | ⟨h, hps, hrest⟩
    · unfold pat_parse; rw [hnone]; rfl
    · unfold pat_parse
      rw [hps]
      show pat_check hpid h payload s = s
      rcases hrest with hcni | ⟨old, hc, hv⟩
      · unfold pat_check; rw [if_pos hcni]
      · unfold pat_check
        by_cases hcni : h.current_next_indicator = 0
        · rw [if_pos hcni]
        · rw [if_neg hcni, hc]
          show (if old.version_number = h.version_number then s else _) = s
          rw [if_pos hv]
  · exact pat_parse_idem hpid payload n s

theorem pat_parse_discard_no_change_witness :
    psi_parse patPayloadV0 16 = some psiHeaderV0 ∧
    stateV0.psi_tables (TS_PACKET_HASH_KEY 0 psiHeaderV0.table_id) = some patTableV0 ∧
    patTableV0.version_number = psiHeaderV0.version_number ∧
    pat_parse 0 patPayloadV0 16 stateV0 = stateV0 :=
  ⟨by decide, rfl, by decide,
   (pat_parse_discard_no_change 0 patPayloadV0 16 stateV0
      (Or.inr ⟨psiHeaderV0, by decide, Or.inr ⟨patTableV0, rfl, by decide⟩⟩)).1⟩

/-- C3 counterexample: after accepting a first PAT (pid 0, table_id 0,
hash key 0), a second accepted PAT version announcing program_number 2
(nonzero) on PID 0 does NOT give psi_parsers an entry for PID 0 bound to
pmt_parse: the registration probe `hashtable_get(priv->psi_tables, pid)`
hits the table hashed under key 0, so registration is skipped and the
dispatcher has no entry for that PID at all. -/
theorem pat_parse_registration_skipped_cex :
    ((pat_parse 0 patPayloadPid0 16 stateV0).psi_tables 0).map
        (fun p => (p.version_number, p.programs)) = some (1, [⟨2, 6, 0⟩]) ∧
    (pat_parse 0 patPayloadPid0 16 stateV0).psi_parsers 0 = none ∧
    (pat_parse 0 patPayloadPid0 16 stateV0).psi_parsers 0 ≠ some ParserTag.pmt_parse_fn := by
  refine ⟨by decide, by decide, by decide⟩

/-- C3 (amended): after pat_parse accepts a PAT announcing program_number P
on PID Q, psi_parsers binds Q to pmt_parse when P ≠ 0 and to nit_parse when
P = 0, PROVIDED Q is not a key of psi_tables (the code probes psi_tables,
not psi_parsers, before registering) and all entries of the section that
announce Q agree on the parser; and re-delivery of the same section leaves
the dispatcher unchanged (replacement is idempotent). -/
theorem pat_parse_registers_dispatch
    (hpid : Nat) (payload : List Nat) (n : Nat) (s : DemuxState) (h : PsiHeader)
    (pr : PatProgram)
    (hps : psi_parse payload n = some h)
    (hcni : h.current_next_indicator ≠ 0)
    (hver : ∀ old, s.psi_tables (TS_PACKET_HASH_KEY hpid h.table_id) = some old →
      old.version_number ≠ h.version_number)
    (hmem : pr ∈ (pat_build hpid h payload).programs)
    (hfresh : s.psi_tables pr.pid = none)
    (hagree : ∀ e ∈ (pat_build hpid h payload).programs, e.pid = pr.pid →
      parser_for e = parser_for pr) :
    (pat_parse hpid payload n s).psi_parsers pr.pid = some (parser_for pr) ∧
    (pat_parse hpid payload n (pat_parse hpid payload n s)).psi_parsers =
      (pat_parse hpid payload n s).psi_parsers := by
  constructor
  · rw [pat_parse_accept_eq hps hcni hver, pat_accept_psi_parsers]
    exact register_parsers_sets _ s.psi_tables s.psi_parsers hfresh hmem rfl hagree
  · rw [pat_parse_idem]

theorem pat_parse_registers_dispatch_witness :
    psi_parse patPayloadV0 16 = some psiHeaderV0 ∧
    (⟨1, 6, 0x100⟩ : PatProgram) ∈ (pat_build 0 psiHeaderV0 patPayloadV0).programs ∧
    initState.psi_tables 0x100 = none ∧
    (pat_parse 0 patPayloadV0 16 initState).psi_parsers 0x100 =
      some (parser_for ⟨1, 6, 0x100⟩) ∧
    parser_for ⟨1, 6, 0x100⟩ = ParserTag.pmt_parse_fn :=
  ⟨by decide, by decide, rfl,
   (pat_parse_registers_dispatch 0 patPayloadV0 16 initState psiHeaderV0 ⟨1, 6, 0x100⟩
      (by decide) (by decide)
      (fun o ho => by
        rw [show initState.psi_tables (TS_PACKET_HASH_KEY 0 psiHeaderV0.table_id) = none
          from rfl] at ho
        exact Option.noConfusion ho)
      (by decide) rfl (by decide)).1,
   by decide⟩

/-- C4 counterexample: the accepted minimal PAT (program_number 1 on PID
0x100, version 0) yields a Programs symlink named "0x01" targeting
"../../../PMT/0x100/Current" — printf "%#04x" counts the "0x" prefix in the
field width — not the claimed four-digit "0x0001" pointing at
"../../../PMT/0x0100/Current". -/
theorem pat_programs_symlink_width_cex :
    ((stateV0.psi_tables 0).map fun p =>
        (fsutils_get_child p.dentry "V00").bind fun v =>
          (fsutils_get_child v "Programs").map fun pd =>
            pd.children.map fun c => (c.name, c.contents)) =
      some (some [("0x01", "../../../PMT/0x100/Current")]) ∧
    "0x01" ≠ "0x0001" ∧
    "../../../PMT/0x100/Current" ≠ "../../../PMT/0x0100/Current" := by
  refine ⟨by decide, by decide, by decide⟩

/-- C4 (amended): for every program entry of an accepted PAT, pat_populate
creates under the version directory's Programs/ directory a symlink whose
name is the program_number rendered with printf "%#04x" (the width-4 field
includes the "0x" prefix) and whose target is
"../../../PMT/<%#04x of pid>/Current" when program_number ≠ 0 and
"../../../NIT/Current" when program_number = 0. -/
theorem pat_programs_symlink_shape
    (hpid : Nat) (payload : List Nat) (n : Nat) (s : DemuxState) (h : PsiHeader)
    (hps : psi_parse payload n = some h)
    (hcni : h.current_next_indicator ≠ 0)
    (hver : ∀ old, s.psi_tables (TS_PACKET_HASH_KEY hpid h.table_id) = some old →
      old.version_number ≠ h.version_number)
    (i : Nat) (hi : i < (pat_build hpid h payload).programs.length) :
    ((pat_parse hpid payload n s).psi_tables (TS_PACKET_HASH_KEY hpid h.table_id)).map
        (fun p => fsutils_get_child p.dentry (version_dir_name h.version_number)) =
      some (some (pat_version_dentry (pat_build hpid h payload))) ∧
    fsutils_get_child (pat_version_dentry (pat_build hpid h payload)) FS_PROGRAMS_NAME =
      some (pat_programs_dentry (pat_build hpid h payload).programs) ∧
    (pat_programs_dentry (pat_build hpid h payload).programs).children.getD i default =
      { name := sprintfHash04x
          (((pat_build hpid h payload).programs.getD i default).program_number)
        mode := DMode.symlink
        contents := pat_program_target ((pat_build hpid h payload).programs.getD i default)
        inode := 0
        children := [] } ∧
    (∀ q : PatProgram, q.program_number = 0 → pat_program_target q = "../../../NIT/Current") ∧
    (∀ q : PatProgram, q.program_number ≠ 0 →
      pat_program_target q = "../../../PMT/" ++ sprintfHash04x q.pid ++ "/" ++ "Current") := by
  refine ⟨?_, get_child_version_programs _, ?_, ?_, ?_⟩
  · rw [pat_parse_accept_eq hps hcni hver, pat_accept_psi_tables]
    unfold hashtable_update
    rw [if_pos rfl]
    show some (fsutils_get_child (pat_stored hpid h payload s).dentry
      (version_dir_name h.version_number)) = _
    cases hc : s.psi_tables (TS_PACKET_HASH_KEY hpid h.table_id) with
    | none =>
      unfold pat_stored
      rw [hc]
      show some (fsutils_get_child (pat_build hpid h payload).dentry _) = _
      rw [pat_build_dentry_version]
    | some cur =>
      rw [pat_stored_some hc]
      show some (fsutils_get_child
        (fsutils_migrate_children cur.dentry (pat_build hpid h payload).dentry) _) = _
      rw [migrate_children_found (pat_build_dentry_version hpid h payload)]
  · show ((pat_build hpid h payload).programs.map pat_program_symlink).getD i default = _
    rw [list_map_getD pat_program_symlink _ i default default hi]
    rfl
  · intro q hq
    unfold pat_program_target
    rw [if_pos hq]
    rfl
  · intro q hq
    unfold pat_program_target
    rw [if_neg hq]
    rfl

theorem pat_programs_symlink_shape_witness :
    psi_parse patPayloadV0 16 = some psiHeaderV0 ∧
    0 < (pat_build 0 psiHeaderV0 patPayloadV0).programs.length ∧
    ((pat_parse 0 patPayloadV0 16 initState).psi_tables
        (TS_PACKET_HASH_KEY 0 psiHeaderV0.table_id)).map
      (fun p => fsutils_get_child p.dentry (version_dir_name psiHeaderV0.version_number)) =
      some (some (pat_version_dentry (pat_build 0 psiHeaderV0 patPayloadV0))) ∧
    (pat_programs_dentry (pat_build 0 psiHeaderV0 patPayloadV0).programs).children.getD 0
        default =
      { name := "0x01", mode := DMode.symlink, contents := "../../../PMT/0x100/Current",
        inode := 0, children := [] } := by
  have hmain := pat_programs_symlink_shape 0 patPayloadV0 16 initState psiHeaderV0
    (by decide) (by decide)
    (fun o ho => by
      rw [show initState.psi_tables (TS_PACKET_HASH_KEY 0 psiHeaderV0.table_id) = none
        from rfl] at ho
      exact Option.noConfusion ho)
    0 (by decide)
  exact ⟨by decide, by decide, hmain.1, rfl⟩

/-- C5: the stored reserved value of the accepted minimal PAT is 6, yet the
third byte of its program entry is 0xE1, whose top 3 bits are 7: the code
computes `payload[offset+2] >> 4` (a 4-bit value) and truncates it into the
3-bit struct field, keeping bits 6..4 instead of the wire-format reserved
bits 7..5.  program_number and pid are decoded as the claim states. -/
theorem pat_program_reserved_truncated :
    (stateV0.psi_tables 0).map (fun p => p.programs) = some [⟨1, 6, 0x100⟩] ∧
    byteAt patPayloadV0 10 = 0xE1 ∧
    byteAt patPayloadV0 10 / 32 = 7 ∧
    byteAt patPayloadV0 10 / 16 % 8 = 6 ∧
    (6 : Nat) ≠ 7 := by
  refine ⟨by decide, by decide, by decide, by decide, by decide⟩

/-- C6: for every accepted PAT section with section_length ≥ 9 the number of
program entries parsed — both the num_programs field and the length of the
programs list — equals (section_length − 9) / 4, the 9 accounting for the
2-byte transport_stream_id, three single-byte header fields and the 4-byte
CRC32. -/
theorem pat_parse_num_programs_formula
    (hpid : Nat) (payload : List Nat) (n : Nat) (s : DemuxState) (h : PsiHeader)
    (hps : psi_parse payload n = some h)
    (hcni : h.current_next_indicator ≠ 0)
    (hver : ∀ old, s.psi_tables (TS_PACKET_HASH_KEY hpid h.table_id) = some old →
      old.version_number ≠ h.version_number)
    (h9 : 9 ≤ h.section_length) :
    ((pat_parse hpid payload n s).psi_tables (TS_PACKET_HASH_KEY hpid h.table_id)).map
        (fun p => (p.num_programs, p.programs.length)) =
      some ((h.section_length - 9) / 4, (h.section_length - 9) / 4) := by
  have hle := psi_parse_section_length_le hps
  have heq9 : pat_num_programs h.section_length = (h.section_length - 9) / 4 := by
    unfold pat_num_programs
    have h1 : ((h.section_length : Int) - 2 - 1 - 1 - 1 - 4) =
        ((h.section_length - 9 : Nat) : Int) := by omega
    rw [h1]
    have h2 : Int.tdiv ((h.section_length - 9 : Nat) : Int) 4 =
        (((h.section_length - 9) / 4 : Nat) : Int) := by
      rw [show ((4 : Int)) = ((4 : Nat) : Int) from rfl]
      exact (Int.ofNat_tdiv _ _).symm
    rw [h2]
    have h3 : Int.emod (((h.section_length - 9) / 4 : Nat) : Int) 65536 =
        (((h.section_length - 9) / 4 : Nat) : Int) := by
      apply Int.emod_eq_of_lt
      · omega
      · omega
    rw [h3]
    omega
  rw [pat_parse_accept_eq hps hcni hver, pat_accept_psi_tables]
  unfold hashtable_update
  rw [if_pos rfl]
  show some ((pat_stored hpid h payload s).num_programs,
    (pat_stored hpid h payload s).programs.length) = _
  rw [pat_stored_num_programs, pat_stored_programs]
  have hlen : (pat_parse_programs payload (pat_num_programs h.section_length)).length =
      pat_num_programs h.section_length := by
    unfold pat_parse_programs
    rw [List.length_map, List.length_range]
  rw [hlen, heq9]

theorem pat_parse_num_programs_formula_witness :
    psi_parse patPayloadV0 16 = some psiHeaderV0 ∧
    9 ≤ psiHeaderV0.section_length ∧
    ((pat_parse 0 patPayloadV0 16 initState).psi_tables
        (TS_PACKET_HASH_KEY 0 psiHeaderV0.table_id)).map
      (fun p => (p.num_programs, p.programs.length)) = some (1, 1) := by
  have hmain := pat_parse_num_programs_formula 0 patPayloadV0 16 initState psiHeaderV0
    (by decide) (by decide)
    (fun o ho => by
      rw [show initState.psi_tables (TS_PACKET_HASH_KEY 0 psiHeaderV0.table_id) = none
        from rfl] at ho
      exact Option.noConfusion ho)
    (by decide)
  exact ⟨by decide, by decide, hmain⟩

/-- C7 counterexample: with adaptation_length = 1 the parser stores
adaptation_type (payload[12]) AND one further data byte (payload[13]), so
the adaptation portion it consumes spans 1 + adaptation_length bytes — its
first byte being adaptation_type — not "exactly adaptation_length bytes"
as claimed. -/
theorem dsmcc_adaptation_length_cex :
    (dsmcc_parse_message_header dsmccPayload 0).1.adaptation_length = 1 ∧
    (dsmcc_parse_message_header dsmccPayload 0).1.adaptation_type = 9 ∧
    (dsmcc_parse_message_header dsmccPayload 0).1.adaptation_data_bytes = [7] ∧
    ((dsmcc_parse_message_header dsmccPayload 0).1.adaptation_type ::
        (dsmcc_parse_message_header dsmccPayload 0).1.adaptation_data_bytes).length ≠
      (dsmcc_parse_message_header dsmccPayload 0).1.adaptation_length := by
  refine ⟨by decide, by decide, by decide, by decide⟩

/-- C7 (amended): dsmcc_parse_message_header decodes the fixed fields in
order (protocol_discriminator, dsmcc_type, big-endian message_id, big-endian
transaction_id, reserved, adaptation_length, big-endian message_length) and
returns index + 12; when adaptation_length is nonzero the adaptation portion
spans 1 + adaptation_length bytes: adaptation_type at index + 12 followed by
exactly adaptation_length data bytes starting at index + 13. -/
theorem dsmcc_parse_message_header_fields (payload : List Nat) (index : Nat) :
    (dsmcc_parse_message_header payload index).2 = index + 12 ∧
    (dsmcc_parse_message_header payload index).1.protocol_discriminator =
      byteAt payload index ∧
    (dsmcc_parse_message_header payload index).1.dsmcc_type = byteAt payload (index + 1) ∧
    (dsmcc_parse_message_header payload index).1.message_id =
      CONVERT_TO_16 (byteAt payload (index + 2)) (byteAt payload (index + 3)) ∧
    (dsmcc_parse_message_header payload index).1.transaction_id =
      CONVERT_TO_32 (byteAt payload (index + 4)) (byteAt payload (index + 5))
        (byteAt payload (index + 6)) (byteAt payload (index + 7)) ∧
    (dsmcc_parse_message_header payload index).1.reserved = byteAt payload (index + 8) ∧
    (dsmcc_parse_message_header payload index).1.adaptation_length =
      byteAt payload (index + 9) ∧
    (dsmcc_parse_message_header payload index).1.message_length =
      CONVERT_TO_16 (byteAt payload (index + 10)) (byteAt payload (index + 11)) ∧
    ((dsmcc_parse_message_header payload index).1.adaptation_length ≠ 0 →
      (dsmcc_parse_message_header payload index).1.adaptation_type =
        byteAt payload (index + 12) ∧
      (dsmcc_parse_message_header payload index).1.adaptation_data_bytes.length =
        (dsmcc_parse_message_header payload index).1.adaptation_length ∧
      ∀ j, j < (dsmcc_parse_message_header payload index).1.adaptation_length →
        (dsmcc_parse_message_header payload index).1.adaptation_data_bytes.getD j 0 =
          byteAt payload (index + 13 + j)) := by
  refine ⟨rfl, rfl, rfl, rfl, rfl, rfl, rfl, rfl, ?_⟩
  intro halen
  have halen2 : byteAt payload (index + 9) ≠ 0 := halen
  refine ⟨?_, ?_, ?_⟩
  · show (if byteAt payload (index + 9) ≠ 0 then byteAt payload (index + 12) else 0) = _
    rw [if_pos halen2]
  · show (if byteAt payload (index + 9) ≠ 0 then
        (List.range (byteAt payload (index + 9))).map (fun j => byteAt payload (index + 13 + j))
      else []).length = _
    rw [if_pos halen2]
    show _ = byteAt payload (index + 9)
    rw [List.length_map, List.length_range]
  · intro j hj
    have hj2 : j < byteAt payload (index + 9) := hj
    show (if byteAt payload (index + 9) ≠ 0 then
        (List.range (byteAt payload (index + 9))).map (fun j => byteAt payload (index + 13 + j))
      else []).getD j 0 = _
    rw [if_pos halen2]
    rw [list_map_getD _ _ j 0 0 (by simpa using hj2), list_range_getD hj2]

theorem dsmcc_parse_message_header_fields_witness :
    (dsmcc_parse_message_header dsmccPayload 0).1.adaptation_length ≠ 0 ∧
    (dsmcc_parse_message_header dsmccPayload 0).2 = 0 + 12 ∧
    (dsmcc_parse_message_header dsmccPayload 0).1.adaptation_type = byteAt dsmccPayload 12 := by
  have hmain := dsmcc_parse_message_header_fields dsmccPayload 0
  have hlen : (dsmcc_parse_message_header dsmccPayload 0).1.adaptation_length ≠ 0 := by decide
  exact ⟨hlen, hmain.1, (hmain.2.2.2.2.2.2.2.2 hlen).1⟩

/-- C8: with descriptor_count = 2 and sub_descriptor_count = (1, 0), the
code creates "sub_descriptor_01" under "descriptor_02" as well (the loop
body always dereferences cd->descriptors, the first array element, so every
descriptor directory gets descriptor 1's field values — descriptor_type 1 —
and descriptor 1's sub-descriptor count), where the claim and the spec want
descriptor_02 to hold its own values and no sub-descriptor children. -/
theorem dsmcc_compatibility_uses_first_descriptor :
    cdExample.descriptor_count = 2 ∧
    cdExample.descriptors.map (fun d => d.sub_descriptor_count) = [1, 0] ∧
    ((fsutils_get_child (dsmcc_create_compatibility_descriptor_dentries cdExample
          ⟨"compatibilityDescriptor", DMode.dir, "", 0, []⟩) "descriptor_02").bind
        (fun d => fsutils_get_child d "sub_descriptor_01")).isSome = true ∧
    ((fsutils_get_child (dsmcc_create_compatibility_descriptor_dentries cdExample
          ⟨"compatibilityDescriptor", DMode.dir, "", 0, []⟩) "descriptor_02").map
        (fun d => (fsutils_get_child d "descriptor_type").map (fun f => f.contents))) =
      some (some "1") := by
  refine ⟨by decide, by decide, by decide, by decide⟩

/-- C9: the hash key is `(pid & 0xffff) << 8 | table_id`, which for a 13-bit
PID and an 8-bit table_id equals `(pid << 8) | table_id`, fits in 32 bits,
and is the inode pat_parse assigns to the stored table's top dentry. -/
theorem ts_packet_hash_key_correct
    (hpid : Nat) (payload : List Nat) (n : Nat) (s : DemuxState) (h : PsiHeader)
    (hps : psi_parse payload n = some h)
    (hcni : h.current_next_indicator ≠ 0)
    (hver : ∀ old, s.psi_tables (TS_PACKET_HASH_KEY hpid h.table_id) = some old →
      old.version_number ≠ h.version_number)
    (hpid13 : hpid < 8192) :
    TS_PACKET_HASH_KEY hpid h.table_id = (hpid <<< 8) ||| h.table_id ∧
    TS_PACKET_HASH_KEY hpid h.table_id < 4294967296 ∧
    ((pat_parse hpid payload n s).psi_tables (TS_PACKET_HASH_KEY hpid h.table_id)).map
        (fun p => p.dentry.inode) = some (TS_PACKET_HASH_KEY hpid h.table_id) := by
  have htid := psi_parse_table_id_lt hps
  have hmask : hpid &&& 0xffff = hpid := by
    have h16 : (0xffff : Nat) = 2 ^ 16 - 1 := by norm_num
    rw [h16]
    exact Nat.and_pow_two_sub_one_of_lt_two_pow (lt_trans hpid13 (by norm_num))
  refine ⟨?_, ?_, ?_⟩
  · unfold TS_PACKET_HASH_KEY
    rw [hmask]
  · unfold TS_PACKET_HASH_KEY
    rw [hmask]
    have h1 : hpid <<< 8 < 2 ^ 32 := by
      rw [Nat.shiftLeft_eq]
      have ha : (2 : Nat) ^ 8 = 256 := by norm_num
      have hb : (2 : Nat) ^ 32 = 4294967296 := by norm_num
      rw [ha, hb]
      omega
    have h2 : h.table_id < 2 ^ 32 := by
      have hb : (2 : Nat) ^ 32 = 4294967296 := by norm_num
      omega
    have hor := Nat.or_lt_two_pow h1 h2
    have hb : (2 : Nat) ^ 32 = 4294967296 := by norm_num
    omega
  · rw [pat_parse_accept_eq hps hcni hver, pat_accept_psi_tables]
    unfold hashtable_update
    rw [if_pos rfl]
    show some (pat_stored hpid h payload s).dentry.inode = _
    rw [pat_stored_inode]

theorem ts_packet_hash_key_correct_witness :
    psi_parse patPayloadV0 16 = some psiHeaderV0 ∧
    (0 : Nat) < 8192 ∧
    TS_PACKET_HASH_KEY 0 psiHeaderV0.table_id = (0 <<< 8) ||| psiHeaderV0.table_id ∧
    ((pat_parse 0 patPayloadV0 16 initState).psi_tables
        (TS_PACKET_HASH_KEY 0 psiHeaderV0.table_id)).map (fun p => p.dentry.inode) =
      some (TS_PACKET_HASH_KEY 0 psiHeaderV0.table_id) := by
  have hmain := ts_packet_hash_key_correct 0 patPayloadV0 16 initState psiHeaderV0
    (by decide) (by decide)
    (fun o ho => by
      rw [show initState.psi_tables (TS_PACKET_HASH_KEY 0 psiHeaderV0.table_id) = none
        from rfl] at ho
      exact Option.noConfusion ho)
    (by decide)
  exact ⟨by decide, by decide, hmain.1, hmain.2.2⟩

/-- C10: pat_announces_service returns the state unchanged and returns true
exactly when the dentry resolved at /PAT/Current/Programs has a child named
"%#04x" of the service_id; when that path does not resolve it returns
false. -/
theorem pat_announces_service_spec (service_id : Nat) (s : DemuxState) :
    (pat_announces_service service_id s).2 = s ∧
    (fsutils_get_dentry s.root [FS_PAT_NAME, FS_CURRENT_NAME, FS_PROGRAMS_NAME] = none →
      (pat_announces_service service_id s).1 = false) ∧
    ∀ d, fsutils_get_dentry s.root [FS_PAT_NAME, FS_CURRENT_NAME, FS_PROGRAMS_NAME] = some d →
      ((pat_announces_service service_id s).1 = true ↔
        (fsutils_get_child d (sprintfHash04x service_id)).isSome = true) := by
  refine ⟨rfl, ?_, ?_⟩
  · intro hnone
    unfold pat_announces_service
    rw [hnone]
  · intro d hd
    unfold pat_announces_service
    rw [hd]

theorem pat_announces_service_spec_witness :
    fsutils_get_dentry stateV0.root [FS_PAT_NAME, FS_CURRENT_NAME, FS_PROGRAMS_NAME] =
      some (pat_programs_dentry patTableV0.programs) ∧
    (pat_announces_service 1 stateV0).1 = true ∧
    (pat_announces_service 1 stateV0).2 = stateV0 := by
  have hd : fsutils_get_dentry stateV0.root [FS_PAT_NAME, FS_CURRENT_NAME, FS_PROGRAMS_NAME] =
      some (pat_programs_dentry patTableV0.programs) := rfl
  have hmain := pat_announces_service_spec 1 stateV0
  refine ⟨hd, ?_, hmain.1⟩
  rw [hmain.2.2 _ hd]
  decide
